import Mathlib

/-!
Verification development for the data-access layer of a FastAPI demo
repository.  The Python modules `db/core.py`, `db/users.py`,
`db/product.py` and `db/posts.py` are shallowly embedded below: the
storage engine (MySQL reached through `mysql.connector`) is modelled as
a nondeterministic environment (`DBEnv`) answering each driver call,
and the Python control flow (try / except Error / finally, early
returns, local-variable binding) is translated into total Lean
functions returning an explicit result-plus-cleanup trace.
-/

/-- Values bound as query parameters: strings, integers, and uninterpreted
decimal literals (the layer does no arithmetic on prices). -/
inductive Value where
  | str (s : String) : Value
  | int (i : Int) : Value
  | num (s : String) : Value
deriving DecidableEq, Repr

/-- Result of a dictionary cursor row: column name to value, as produced by
`cursor(dictionary=True)` in `fetch_one` / `fetch_all`. -/
abbrev Row := List (String × Value)

/-- Outcome of a Python call as seen by its caller: a normal return value, or
an uncaught exception carrying its message. -/
inductive PyResult (α : Type) where
  | ok (a : α) : PyResult α
  | raised (msg : String) : PyResult α
deriving DecidableEq, Repr

/-- Outcome of one driver-level call: success with a payload, or a raised
`mysql.connector.Error` with its message. -/
inductive EngineStep (α : Type) where
  | ok (a : α) : EngineStep α
  | err (msg : String) : EngineStep α
deriving DecidableEq, Repr

/-- True when the driver call succeeded. -/
def EngineStep.isOk {α : Type} : EngineStep α → Bool
  | .ok _ => true
  | .err _ => false

/-- Outcome of `mysql.connector.connect(...)`: a live connection handle, a
raised `mysql.connector.Error` (engine unreachable, authentication
rejected), or a raised exception of any other class. -/
inductive ConnectAttempt where
  | conn (handle : Nat) : ConnectAttempt
  | raiseEngineError (msg : String) : ConnectAttempt
  | raiseOther (msg : String) : ConnectAttempt
deriving DecidableEq, Repr

/-- The driver call actually issued by the `if params:` branch of the
primitives: `cursor.execute(query)` or `cursor.execute(query, params)`. -/
inductive CursorCall where
  | plain (q : String) : CursorCall
  | withParams (q : String) (ps : List Value) : CursorCall
deriving DecidableEq, Repr

/-- Python truthiness of the `params` argument (`None` and the empty tuple
are both falsy). -/
def truthy : Option (List Value) → Bool
  | none => false
  | some ps => !ps.isEmpty

/-- Which `cursor.execute` call `if params: ... else: ...` issues. -/
def issuedCall (q : String) (params : Option (List Value)) : CursorCall :=
  if truthy params then CursorCall.withParams q (params.getD []) else CursorCall.plain q

/-- Environment answering one primitive invocation: how the engine and
driver respond to each call the Python code can make.  `exec` returns the
affected row count on success (`cursor.rowcount`), which the code never
reads.  `isConnected` is what `connection.is_connected()` reports inside
the `finally` block. -/
structure DBEnv where
  connect : ConnectAttempt
  cursorCreate : EngineStep Unit
  exec : CursorCall → EngineStep Nat
  commit : EngineStep Unit
  fetchone : EngineStep (Option Row)
  fetchall : EngineStep (List Row)
  isConnected : Bool

/-- Result and resource trace of one primitive call: the Python-level result,
whether `cursor.close()` and `connection.close()` ran, and whether a commit
made the statement durable. -/
structure CallTrace (α : Type) where
  result : PyResult α
  cursorClosed : Bool
  connectionClosed : Bool
  committed : Bool
deriving DecidableEq, Repr

/-- Message of the exception raised when the `finally` block evaluates
`cursor.close()` while the local `cursor` was never assigned. -/
def unboundCursorMsg : String :=
  "UnboundLocalError: local variable cursor referenced before assignment"

namespace DatabaseManager

/-- Embedding of `DatabaseManager.get_connection`: call the driver, log and
return `None` when an engine `Error` is raised; any exception of another
class is not caught and propagates. -/
def get_connection (a : ConnectAttempt) : PyResult (Option Nat) :=
  match a with
  | .conn h => .ok (some h)
  | .raiseEngineError _ => .ok none
  | .raiseOther m => .raised m

/-- Embedding of `DatabaseManager.execute_query`: open a connection
(returning `False` when absent), then in a try block create a cursor,
execute the statement (parameterized only when `params` is truthy) and
commit, returning `True`; an engine `Error` is caught and turns into
`False`; the `finally` block closes cursor and connection only when
`connection.is_connected()`, and references the local `cursor` even on
paths where it was never assigned. -/
def execute_query (env : DBEnv) (query : String) (params : Option (List Value)) :
    CallTrace Bool :=
  match get_connection env.connect with
  | .raised m => ⟨.raised m, false, false, false⟩
  | .ok none => ⟨.ok false, false, false, false⟩
  | .ok (some _) =>
    match env.cursorCreate with
    | .err _ =>
      if env.isConnected then ⟨.raised unboundCursorMsg, false, false, false⟩
      else ⟨.ok false, false, false, false⟩
    | .ok _ =>
      let body : Bool × Bool :=
        match env.exec (issuedCall query params) with
        | .err _ => (false, false)
        | .ok _ =>
          match env.commit with
          | .err _ => (false, false)
          | .ok _ => (true, true)
      if env.isConnected then ⟨.ok body.1, true, true, body.2⟩
      else ⟨.ok body.1, false, false, body.2⟩

/-- Embedding of `DatabaseManager.fetch_one`: same skeleton as
`execute_query` but with a dictionary cursor, no commit, and `None`
standing for both a caught engine `Error` and an empty fetch. -/
def fetch_one (env : DBEnv) (query : String) (params : Option (List Value)) :
    CallTrace (Option Row) :=
  match get_connection env.connect with
  | .raised m => ⟨.raised m, false, false, false⟩
  | .ok none => ⟨.ok none, false, false, false⟩
  | .ok (some _) =>
    match env.cursorCreate with
    | .err _ =>
      if env.isConnected then ⟨.raised unboundCursorMsg, false, false, false⟩
      else ⟨.ok none, false, false, false⟩
    | .ok _ =>
      let body : PyResult (Option Row) :=
        match env.exec (issuedCall query params) with
        | .err _ => .ok none
        | .ok _ =>
          match env.fetchone with
          | .err _ => .ok none
          | .ok r => .ok r
      if env.isConnected then ⟨body, true, true, false⟩
      else ⟨body, false, false, false⟩

/-- Embedding of `DatabaseManager.fetch_all`: as `fetch_one` but returning
every row, with the empty list standing for both a caught engine `Error`
and an empty result set. -/
def fetch_all (env : DBEnv) (query : String) (params : Option (List Value)) :
    CallTrace (List Row) :=
  match get_connection env.connect with
  | .raised m => ⟨.raised m, false, false, false⟩
  | .ok none => ⟨.ok [], false, false, false⟩
  | .ok (some _) =>
    match env.cursorCreate with
    | .err _ =>
      if env.isConnected then ⟨.raised unboundCursorMsg, false, false, false⟩
      else ⟨.ok [], false, false, false⟩
    | .ok _ =>
      let body : PyResult (List Row) :=
        match env.exec (issuedCall query params) with
        | .err _ => .ok []
        | .ok _ =>
          match env.fetchall with
          | .err _ => .ok []
          | .ok rs => .ok rs
      if env.isConnected then ⟨body, true, true, false⟩
      else ⟨body, false, false, false⟩

end DatabaseManager

/-- Effect of one mutating call on a table snapshot: work not committed
before the connection closes is rolled back, so the table advances to the
statement result only when the trace committed. -/
def tableAfterCall {α β : Type} (t newT : α) (tr : CallTrace β) : α :=
  if tr.committed then newT else t

/-- Environment in which every driver call succeeds and a query returns no
rows. -/
def okEnv : DBEnv :=
  ⟨.conn 1, .ok (), fun _ => .ok 1, .ok (), .ok none, .ok [], true⟩

/-- Environment in which the engine rejects every statement with an error. -/
def rejectEnv : DBEnv :=
  ⟨.conn 1, .ok (), fun _ => .err "1064 syntax error", .ok (), .ok none, .ok [], true⟩

/-- Environment in which the connection opens but `connection.cursor()`
raises an engine `Error` while `connection.is_connected()` still reports
true in the `finally` block. -/
def cursorFailEnv : DBEnv :=
  ⟨.conn 1, .err "OperationalError: MySQL Connection not available",
    fun _ => .ok 1, .ok (), .ok none, .ok [], true⟩

/-- Environment in which `mysql.connector.connect` raises an engine
`Error` (engine unreachable). -/
def noConnEnv : DBEnv :=
  ⟨.raiseEngineError "2003 cannot connect to MySQL server",
    .ok (), fun _ => .ok 1, .ok (), .ok none, .ok [], true⟩

/-- Row of the `users` table (`id` engine-assigned primary key). -/
structure UserRow where
  id : Int
  name : String
  email : String
  password : String
deriving DecidableEq, Repr

/-- Updatable columns of the `users` table. -/
inductive UserCol where
  | name : UserCol
  | email : UserCol
  | password : UserCol
deriving DecidableEq, Repr

/-- SQL identifier of a `users` column. -/
def colName : UserCol → String
  | .name => "name"
  | .email => "email"
  | .password => "password"

/-- One `col = value` assignment applied to a row. -/
def setCol (r : UserRow) (c : UserCol) (v : String) : UserRow :=
  match c with
  | .name => ⟨r.id, v, r.email, r.password⟩
  | .email => ⟨r.id, r.name, v, r.password⟩
  | .password => ⟨r.id, r.name, r.email, v⟩

/-- The assignment list of a SET clause applied left to right to a row, as
the engine evaluates `SET c1 = v1, c2 = v2, ...`. -/
def applyAssigns (r : UserRow) (assigns : List (UserCol × String)) : UserRow :=
  assigns.foldl (fun acc kv => setCol acc kv.1 kv.2) r

/-- First value bound to a column in an assignment list. -/
def lookupCol (assigns : List (UserCol × String)) (c : UserCol) : Option String :=
  (assigns.find? (fun kv => decide (kv.1 = c))).map Prod.snd

/-- Column-by-column description of the row produced by a SET clause: each
column takes its bound value when one is supplied and keeps its prior value
otherwise; the id is untouched. -/
def specUpdatedRow (r : UserRow) (assigns : List (UserCol × String)) : UserRow :=
  ⟨r.id, (lookupCol assigns .name).getD r.name,
    (lookupCol assigns .email).getD r.email,
    (lookupCol assigns .password).getD r.password⟩

/-- Engine semantics of `UPDATE users SET ... WHERE id = %s`: every row
whose id matches receives the assignments, every other row is untouched. -/
def sqlUpdateUsers (t : List UserRow) (assigns : List (UserCol × String)) (uid : Int) :
    List UserRow :=
  t.map (fun r => if r.id = uid then applyAssigns r assigns else r)

/-- View of a column assignment list as the Python dict items passed to
`update_user` (column name paired with its string value). -/
def strAssigns (assigns : List (UserCol × String)) : List (String × Value) :=
  assigns.map (fun kv => (colName kv.1, Value.str kv.2))

/-- Engine semantics of `DELETE FROM <table> WHERE id = %s`: keep exactly
the rows whose id differs, for any entity table with an integer id. -/
def deleteById {ρ : Type} (idOf : ρ → Int) (t : List ρ) (i : Int) : List ρ :=
  t.filter (fun r => decide (idOf r ≠ i))

/-- Engine semantics of `SELECT * FROM <table> WHERE id = %s` fetched with
`fetchone`: the first row with the given id, if any. -/
def getById {ρ : Type} (idOf : ρ → Int) (t : List ρ) (i : Int) : Option ρ :=
  t.find? (fun r => decide (idOf r = i))

/-- Engine semantics of `SELECT * FROM <table>` fetched with `fetchall`. -/
def getAll {ρ : Type} (t : List ρ) : List ρ := t

namespace UserCRUD

/-- The statement text `UserCRUD.update_user` builds: a comma-joined
assignment per key of the field map, each key spliced raw into the SQL,
between the fixed prefix and suffix. -/
def update_user_query (data : List (String × Value)) : String :=
  "UPDATE users SET "
    ++ String.intercalate ", " (data.map (fun kv => kv.1 ++ " = %s"))
    ++ " WHERE id = %s"

/-- The parameter tuple `UserCRUD.update_user` binds: the map values in
map order followed by the id. -/
def update_user_params (user_id : Int) (data : List (String × Value)) : List Value :=
  data.map Prod.snd ++ [Value.int user_id]

/-- Embedding of `UserCRUD.update_user`: build the statement and parameters
and hand them to `DatabaseManager.execute_query`. -/
def update_user (env : DBEnv) (user_id : Int) (data : List (String × Value)) :
    CallTrace Bool :=
  DatabaseManager.execute_query env (update_user_query data)
    (some (update_user_params user_id data))

end UserCRUD

/-- Row of the `products` table as inserted (id engine-assigned). -/
structure ProductRow where
  name : String
  description : String
  price : Value
  quantity : Int
deriving DecidableEq, Repr

namespace ProductCRUD

/-- The insert statement issued by `ProductCRUD.create_product`. -/
def productInsertQuery : String :=
  "INSERT INTO products (name, description, price, quantity) VALUES (%s, %s, %s, %s)"

/-- Embedding of `ProductCRUD.create_product`: raise `PermissionError`
before any database interaction when `is_admin` is false, otherwise run the
insert through `DatabaseManager.execute_query` and return its result. -/
def create_product (env : DBEnv) (name description : String) (price : Value)
    (quantity : Int) (is_admin : Bool) : CallTrace Bool :=
  if is_admin = false then
    ⟨.raised "PermissionError: Admin access required to create products", false, false, false⟩
  else
    DatabaseManager.execute_query env productInsertQuery
      (some [Value.str name, Value.str description, price, Value.int quantity])

end ProductCRUD

/-- Row of the `users` table as seeded (id engine-assigned; the password is
a random hex string produced at seed time). -/
structure SeedUser where
  name : String
  email : String
  password : String
deriving DecidableEq, Repr

/-- Row of the `posts` table as inserted (id engine-assigned). -/
structure PostRow where
  title : String
  content : String
  user_id : Int
deriving DecidableEq, Repr

/-- The (name, email) pairs of the five demo users seeded by
`initialize_database`. -/
def seedUserData : List (String × String) :=
  [("John Doe", "john.doe@example.com"),
   ("Jane Smith", "jane.smith@example.com"),
   ("Bob Johnson", "bob.johnson@example.com"),
   ("Alice Brown", "alice.brown@example.com"),
   ("Charlie Wilson", "charlie.wilson@example.com")]

/-- Engine semantics of one row of the users seed insert with
`ON DUPLICATE KEY UPDATE name=VALUES(name)`: when a row with the unique
email already exists its name is overwritten, otherwise the row is
appended. -/
def upsertByEmail (t : List SeedUser) (n e p : String) : List SeedUser :=
  if t.any (fun r => r.email = e) then
    t.map (fun r => if r.email = e then ⟨n, r.email, r.password⟩ else r)
  else t ++ [⟨n, e, p⟩]

/-- The five demo products seeded by `initialize_database` (prices kept as
the decimal literals of the insert statement). -/
def productSeed : List ProductRow :=
  [⟨"MacBook Pro 16 inch", "Apple MacBook Pro with M3 chip, 16GB RAM, 512GB SSD",
    Value.num "2499.00", 25⟩,
   ⟨"Dell XPS 13", "Ultra-portable laptop with Intel i7, 16GB RAM, 1TB SSD",
    Value.num "1299.00", 40⟩,
   ⟨"iPhone 15 Pro", "Latest iPhone with A17 Pro chip, 128GB storage, Titanium design",
    Value.num "999.00", 75⟩,
   ⟨"Samsung Galaxy S24", "Android flagship with 256GB storage and advanced camera system",
    Value.num "899.00", 60⟩,
   ⟨"Sony WH-1000XM5", "Premium noise-canceling wireless headphones",
    Value.num "399.00", 120⟩]

/-- The five demo posts seeded by `initialize_database` (the second, live
assignment of the posts seed statement in the source). -/
def postSeed : List PostRow :=
  [⟨"My Journey with FastAPI",
    "John shares his experience building scalable APIs with FastAPI and the lessons learned along the way", 1⟩,
   ⟨"Designing User-Centric Databases",
    "Jane discusses her approach to creating database schemas that prioritize user experience and performance", 1⟩,
   ⟨"Advanced Python Patterns I Use Daily",
    "Bob reveals the Python techniques and patterns that have transformed his development workflow", 3⟩,
   ⟨"Building Modern Web Apps: My Story",
    "Alice walks through her process of creating full-stack applications using cutting-edge technologies", 4⟩,
   ⟨"How I Secure My APIs",
    "Charlie explains his comprehensive approach to API security and the tools he relies on", 1⟩]

/-- Contents of the three tables. -/
structure DBState where
  users : List SeedUser
  posts : List PostRow
  products : List ProductRow
deriving DecidableEq, Repr

/-- The three freshly created empty tables. -/
def emptyDB : DBState := ⟨[], [], []⟩

/-- Embedding of the seeding phase of `DatabaseManager.initialize_database`
on already-created tables: the users insert upserts its five rows in order,
keyed on the unique email (`ON DUPLICATE KEY UPDATE name=VALUES(name)`),
with `p1 ... p5` the five random passwords of this run; the products and
posts inserts plainly append their five rows each. -/
def initialize_database (p1 p2 p3 p4 p5 : String) (s : DBState) : DBState :=
  ⟨upsertByEmail
      (upsertByEmail
        (upsertByEmail
          (upsertByEmail
            (upsertByEmail s.users "John Doe" "john.doe@example.com" p1)
            "Jane Smith" "jane.smith@example.com" p2)
          "Bob Johnson" "bob.johnson@example.com" p3)
        "Alice Brown" "alice.brown@example.com" p4)
      "Charlie Wilson" "charlie.wilson@example.com" p5,
    s.posts ++ postSeed,
    s.products ++ productSeed⟩

/-- C10: for every statement, calling execute_query, fetch_one or fetch_all
with an empty parameter tuple behaves identically to calling it with no
parameters at all: Python truthiness routes both to the unparameterized
`cursor.execute(query)` call, so the issued engine call, the result and the
resource effects coincide. -/
theorem c10_empty_params_equals_none :
    ∀ (env : DBEnv) (q : String),
    issuedCall q (some []) = issuedCall q none
    ∧ DatabaseManager.execute_query env q (some [])
        = DatabaseManager.execute_query env q none
    ∧ DatabaseManager.fetch_one env q (some [])
        = DatabaseManager.fetch_one env q none
    ∧ DatabaseManager.fetch_all env q (some [])
        = DatabaseManager.fetch_all env q none := by
  intro env q
  exact ⟨rfl, rfl, rfl, rfl⟩

/-- C1: create_product with is_admin false raises PermissionError, commits
nothing, leaves any products table unchanged and never consults the engine;
with is_admin true it hands the insert statement and its parameters to
execute_query. -/
theorem c1_create_product_admin_gate :
    ∀ (env : DBEnv) (name description : String) (price : Value) (quantity : Int),
    (ProductCRUD.create_product env name description price quantity false).result
        = PyResult.raised "PermissionError: Admin access required to create products"
    ∧ (ProductCRUD.create_product env name description price quantity false).committed = false
    ∧ (∀ env' : DBEnv,
        ProductCRUD.create_product env' name description price quantity false
          = ProductCRUD.create_product env name description price quantity false)
    ∧ (∀ t newT : List ProductRow,
        tableAfterCall t newT (ProductCRUD.create_product env name description price quantity false) = t)
    ∧ ProductCRUD.create_product env name description price quantity true
        = DatabaseManager.execute_query env ProductCRUD.productInsertQuery
            (some [Value.str name, Value.str description, price, Value.int quantity]) := by
  intro env n d p q
  exact ⟨rfl, rfl, fun _ => rfl, fun _ _ => rfl, rfl⟩

/-- C7: provided the driver reports connection failures as engine errors
(the only failure class of an unreachable or auth-rejected engine),
get_connection either returns a live connection or returns the absence
value, never letting an exception escape, and the absence value occurs
exactly on connection failure. -/
theorem c7_get_connection_never_raises :
    ∀ a : ConnectAttempt, (∀ m, a ≠ ConnectAttempt.raiseOther m) →
    ((∃ c, DatabaseManager.get_connection a = PyResult.ok (some c))
        ∨ DatabaseManager.get_connection a = PyResult.ok none)
    ∧ (∀ m, DatabaseManager.get_connection a ≠ PyResult.raised m)
    ∧ (DatabaseManager.get_connection a = PyResult.ok none
        ↔ ∃ m, a = ConnectAttempt.raiseEngineError m) := by
  intro a h
  cases a with
  | conn c =>
    refine ⟨Or.inl ⟨c, rfl⟩, ?_, ?_⟩
    · intro m hm
      exact PyResult.noConfusion hm
    · simp [DatabaseManager.get_connection]
  | raiseEngineError m =>
    refine ⟨Or.inr rfl, ?_, ?_⟩
    · intro m' hm
      exact PyResult.noConfusion hm
    · simp [DatabaseManager.get_connection]
  | raiseOther m => exact absurd rfl (h m)

/-- Witness for C7 at a concrete connection failure. -/
theorem c7_get_connection_never_raises_witness :
    DatabaseManager.get_connection (ConnectAttempt.raiseEngineError "2003 cannot connect")
      = PyResult.ok none := by
  exact ((c7_get_connection_never_raises
    (ConnectAttempt.raiseEngineError "2003 cannot connect") (by simp)).2.2).mpr
    ⟨"2003 cannot connect", rfl⟩

/-- C8: for any entity table with integer ids, after a delete of an id the
get-by-id lookup yields the not-found result and the get-all listing
contains no row with that id. -/
theorem c8_delete_then_lookups_miss :
    ∀ {ρ : Type} (idOf : ρ → Int) (t : List ρ) (i : Int),
    getById idOf (deleteById idOf t i) i = none
    ∧ (getAll (deleteById idOf t i)).all (fun r => decide (idOf r ≠ i)) = true := by
  intro ρ idOf t i
  constructor
  · rw [getById, List.find?_eq_none]
    intro x hx
    rw [deleteById, List.mem_filter] at hx
    simpa using hx.2
  · rw [getAll, List.all_eq_true]
    intro x hx
    rw [deleteById, List.mem_filter] at hx
    exact hx.2

/-- C3: seeding twice from freshly created empty tables leaves exactly one
row per seeded user, because the users insert is an upsert keyed on the
unique email column, while the plain post and product inserts run again on
the second call and duplicate every seeded row. -/
theorem c3_initialize_database_twice :
    ∀ p1 p2 p3 p4 p5 q1 q2 q3 q4 q5 : String,
    ((initialize_database q1 q2 q3 q4 q5
        (initialize_database p1 p2 p3 p4 p5 emptyDB)).users.map
          (fun u => (u.name, u.email))) = seedUserData
    ∧ (initialize_database q1 q2 q3 q4 q5
        (initialize_database p1 p2 p3 p4 p5 emptyDB)).users.length = 5
    ∧ ((initialize_database q1 q2 q3 q4 q5
        (initialize_database p1 p2 p3 p4 p5 emptyDB)).users.map
          (fun u => u.email)).Nodup
    ∧ (initialize_database q1 q2 q3 q4 q5
        (initialize_database p1 p2 p3 p4 p5 emptyDB)).posts = postSeed ++ postSeed
    ∧ (initialize_database q1 q2 q3 q4 q5
        (initialize_database p1 p2 p3 p4 p5 emptyDB)).products = productSeed ++ productSeed
    ∧ (initialize_database q1 q2 q3 q4 q5
        (initialize_database p1 p2 p3 p4 p5 emptyDB)).posts.length = 2 * postSeed.length
    ∧ (initialize_database q1 q2 q3 q4 q5
        (initialize_database p1 p2 p3 p4 p5 emptyDB)).products.length
        = 2 * productSeed.length := by
  intro p1 p2 p3 p4 p5 q1 q2 q3 q4 q5
  refine ⟨?_, ?_, ?_, rfl, rfl, rfl, rfl⟩
  · simp [initialize_database, emptyDB, upsertByEmail, seedUserData]
  · simp [initialize_database, emptyDB, upsertByEmail]
  · simp [initialize_database, emptyDB, upsertByEmail]

theorem lookupCol_cons_self (c : UserCol) (v : String) (rest : List (UserCol × String)) :
    lookupCol ((c, v) :: rest) c = some v := by
  simp [lookupCol]

theorem lookupCol_cons_ne (c c' : UserCol) (v : String) (rest : List (UserCol × String))
    (h : c ≠ c') : lookupCol ((c, v) :: rest) c' = lookupCol rest c' := by
  rw [lookupCol, lookupCol, List.find?_cons_of_neg]
  simp [h]

theorem lookupCol_eq_none (assigns : List (UserCol × String)) (c : UserCol)
    (h : c ∉ assigns.map Prod.fst) : lookupCol assigns c = none := by
  rw [lookupCol]
  have : assigns.find? (fun kv => decide (kv.1 = c)) = none := by
    rw [List.find?_eq_none]
    intro kv hkv
    simp only [decide_eq_true_eq]
    intro hk
    exact h (List.mem_map.mpr ⟨kv, hkv, hk⟩)
  rw [this]
  rfl

theorem applyAssigns_eq_specUpdatedRow (r : UserRow) (assigns : List (UserCol × String))
    (h : (assigns.map Prod.fst).Nodup) : applyAssigns r assigns = specUpdatedRow r assigns := by
  induction assigns generalizing r with
  | nil => cases r; simp [applyAssigns, specUpdatedRow, lookupCol]
  | cons kv rest ih =>
    obtain ⟨c, v⟩ := kv
    simp only [List.map_cons, List.nodup_cons] at h
    have hstep : applyAssigns r ((c, v) :: rest) = applyAssigns (setCol r c v) rest := rfl
    rw [hstep, ih (setCol r c v) h.2]
    have hnone : lookupCol rest c = none := lookupCol_eq_none rest c h.1
    cases c with
    | name =>
      simp [specUpdatedRow, setCol, lookupCol_cons_self, hnone,
        lookupCol_cons_ne UserCol.name UserCol.email v rest (by decide),
        lookupCol_cons_ne UserCol.name UserCol.password v rest (by decide)]
    | email =>
      simp [specUpdatedRow, setCol, lookupCol_cons_self, hnone,
        lookupCol_cons_ne UserCol.email UserCol.name v rest (by decide),
        lookupCol_cons_ne UserCol.email UserCol.password v rest (by decide)]
    | password =>
      simp [specUpdatedRow, setCol, lookupCol_cons_self, hnone,
        lookupCol_cons_ne UserCol.password UserCol.name v rest (by decide),
        lookupCol_cons_ne UserCol.password UserCol.email v rest (by decide)]

theorem c6_update_user_builder_and_frame :
    ∀ (uid : Int) (assigns : List (UserCol × String)) (t : List UserRow),
    assigns ≠ [] → (assigns.map Prod.fst).Nodup →
    UserCRUD.update_user_query (strAssigns assigns)
        = "UPDATE users SET "
            ++ String.intercalate ", " (assigns.map (fun kv => colName kv.1 ++ " = %s"))
            ++ " WHERE id = %s"
    ∧ UserCRUD.update_user_params uid (strAssigns assigns)
        = assigns.map (fun kv => Value.str kv.2) ++ [Value.int uid]
    ∧ sqlUpdateUsers t assigns uid
        = t.map (fun r => if r.id = uid then specUpdatedRow r assigns else r) := by
  intro uid assigns t hne hnd
  refine ⟨?_, ?_, ?_⟩
  · rw [UserCRUD.update_user_query, strAssigns, List.map_map]
    rfl
  · rw [UserCRUD.update_user_params, strAssigns, List.map_map]
    rfl
  · rw [sqlUpdateUsers]
    apply List.map_congr_left
    intro r hr
    by_cases hid : r.id = uid
    · simp [hid, applyAssigns_eq_specUpdatedRow r assigns hnd]
    · simp [hid]

theorem c6_update_user_builder_and_frame_witness :
    UserCRUD.update_user_params 7 (strAssigns [(UserCol.name, "Alice")])
        = [Value.str "Alice", Value.int 7]
    ∧ sqlUpdateUsers
        [⟨7, "Bob", "bob@example.com", "pw1"⟩, ⟨8, "Eve", "eve@example.com", "pw2"⟩]
        [(UserCol.name, "Alice")] 7
        = [⟨7, "Alice", "bob@example.com", "pw1"⟩, ⟨8, "Eve", "eve@example.com", "pw2"⟩] := by
  have h := c6_update_user_builder_and_frame 7 [(UserCol.name, "Alice")]
      [⟨7, "Bob", "bob@example.com", "pw1"⟩, ⟨8, "Eve", "eve@example.com", "pw2"⟩]
      (by decide) (by decide)
  refine ⟨h.2.1, h.2.2.trans ?_⟩
  simp [specUpdatedRow, lookupCol]

/-- C9: update_user with an empty field map builds the malformed statement
with an empty SET clause; any engine that rejects that statement makes the
call return false with nothing committed, leaving every users row
unchanged — an engine error, not a no-op success. -/
theorem c9_update_user_empty_map :
    ∀ (env : DBEnv) (uid : Int) (c : Nat),
    env.connect = ConnectAttempt.conn c →
    env.cursorCreate = EngineStep.ok () →
    (env.exec (issuedCall (UserCRUD.update_user_query [])
        (some (UserCRUD.update_user_params uid [])))).isOk = false →
    UserCRUD.update_user_query [] = "UPDATE users SET  WHERE id = %s"
    ∧ (UserCRUD.update_user env uid []).result = PyResult.ok false
    ∧ (UserCRUD.update_user env uid []).committed = false
    ∧ (∀ (t newT : List UserRow),
        tableAfterCall t newT (UserCRUD.update_user env uid []) = t) := by
  intro env uid c hconn hcur hexec
  have hq : UserCRUD.update_user_query [] = "UPDATE users SET  WHERE id = %s" := by
    rfl
  cases hev : env.exec (issuedCall (UserCRUD.update_user_query [])
      (some (UserCRUD.update_user_params uid []))) with
  | ok n => rw [hev] at hexec; simp [EngineStep.isOk] at hexec
  | err m =>
    have hrun : UserCRUD.update_user env uid []
        = if env.isConnected then ⟨PyResult.ok false, true, true, false⟩
          else ⟨PyResult.ok false, false, false, false⟩ := by
      rw [UserCRUD.update_user, DatabaseManager.execute_query, hconn, hcur]
      simp [DatabaseManager.get_connection, hev]
    refine ⟨hq, ?_, ?_, ?_⟩
    · rw [hrun]; cases env.isConnected <;> rfl
    · rw [hrun]; cases env.isConnected <;> rfl
    · intro t newT
      rw [tableAfterCall, hrun]
      cases env.isConnected <;> rfl

/-- Witness for C9 at a rejecting engine. -/
theorem c9_update_user_empty_map_witness :
    (UserCRUD.update_user rejectEnv 3 []).result = PyResult.ok false
    ∧ (UserCRUD.update_user rejectEnv 3 []).committed = false := by
  have h := c9_update_user_empty_map rejectEnv 3 1 rfl rfl rfl
  exact ⟨h.2.1, h.2.2.1⟩

/-- Counterexample to C2 as stated: when the connection opens,
`connection.cursor()` raises an engine error, and `is_connected()` still
reports true in the finally block, each primitive attempts to close the
never-assigned local `cursor`, raising an unbound-local error, and the
connection is never closed — so release does not happen on this engine
error exit path and an uncreated cursor release is attempted. -/
theorem c2_release_discipline_counterexample :
    (DatabaseManager.execute_query cursorFailEnv "DELETE FROM users WHERE id = %s"
        (some [Value.int 1])).result = PyResult.raised unboundCursorMsg
    ∧ (DatabaseManager.execute_query cursorFailEnv "DELETE FROM users WHERE id = %s"
        (some [Value.int 1])).cursorClosed = false
    ∧ (DatabaseManager.execute_query cursorFailEnv "DELETE FROM users WHERE id = %s"
        (some [Value.int 1])).connectionClosed = false
    ∧ (DatabaseManager.fetch_one cursorFailEnv "SELECT * FROM users WHERE id = %s"
        (some [Value.int 1])).result = PyResult.raised unboundCursorMsg
    ∧ (DatabaseManager.fetch_one cursorFailEnv "SELECT * FROM users WHERE id = %s"
        (some [Value.int 1])).connectionClosed = false
    ∧ (DatabaseManager.fetch_all cursorFailEnv "SELECT * FROM users"
        none).result = PyResult.raised unboundCursorMsg
    ∧ (DatabaseManager.fetch_all cursorFailEnv "SELECT * FROM users"
        none).connectionClosed = false := by
  exact ⟨rfl, rfl, rfl, rfl, rfl, rfl, rfl⟩

/-- C2 amended: the three primitives release cursor and connection on
success, empty result and engine errors raised after cursor creation,
provided the connection still reports connected at cleanup; after a
connect-time failure no release is ever attempted; but when cursor
creation itself fails while the connection still reports connected, the
cleanup attempts to close the never-created cursor, raising an
unbound-local error and leaving the connection unreleased; and when the
connection no longer reports connected at cleanup, neither resource is
closed. -/
theorem c2_release_discipline_amended :
    ∀ (env : DBEnv) (q : String) (p : Option (List Value)),
    (∀ m, env.connect = ConnectAttempt.raiseEngineError m →
      (DatabaseManager.execute_query env q p).cursorClosed = false
      ∧ (DatabaseManager.execute_query env q p).connectionClosed = false
      ∧ (DatabaseManager.fetch_one env q p).cursorClosed = false
      ∧ (DatabaseManager.fetch_one env q p).connectionClosed = false
      ∧ (DatabaseManager.fetch_all env q p).cursorClosed = false
      ∧ (DatabaseManager.fetch_all env q p).connectionClosed = false)
    ∧ (∀ c, env.connect = ConnectAttempt.conn c → env.cursorCreate.isOk = true →
        env.isConnected = true →
      (DatabaseManager.execute_query env q p).cursorClosed = true
      ∧ (DatabaseManager.execute_query env q p).connectionClosed = true
      ∧ (DatabaseManager.fetch_one env q p).cursorClosed = true
      ∧ (DatabaseManager.fetch_one env q p).connectionClosed = true
      ∧ (DatabaseManager.fetch_all env q p).cursorClosed = true
      ∧ (DatabaseManager.fetch_all env q p).connectionClosed = true)
    ∧ (∀ c m, env.connect = ConnectAttempt.conn c → env.cursorCreate = EngineStep.err m →
        env.isConnected = true →
      (DatabaseManager.execute_query env q p).result = PyResult.raised unboundCursorMsg
      ∧ (DatabaseManager.execute_query env q p).connectionClosed = false
      ∧ (DatabaseManager.fetch_one env q p).result = PyResult.raised unboundCursorMsg
      ∧ (DatabaseManager.fetch_one env q p).connectionClosed = false
      ∧ (DatabaseManager.fetch_all env q p).result = PyResult.raised unboundCursorMsg
      ∧ (DatabaseManager.fetch_all env q p).connectionClosed = false)
    ∧ (env.isConnected = false →
      (DatabaseManager.execute_query env q p).cursorClosed = false
      ∧ (DatabaseManager.execute_query env q p).connectionClosed = false
      ∧ (DatabaseManager.fetch_one env q p).cursorClosed = false
      ∧ (DatabaseManager.fetch_one env q p).connectionClosed = false
      ∧ (DatabaseManager.fetch_all env q p).cursorClosed = false
      ∧ (DatabaseManager.fetch_all env q p).connectionClosed = false) := by
  intro env q p
  refine ⟨?_, ?_, ?_, ?_⟩
  · intro m hm
    simp [DatabaseManager.execute_query, DatabaseManager.fetch_one,
      DatabaseManager.fetch_all, DatabaseManager.get_connection, hm]
  · intro c hc hcur hic
    cases hcv : env.cursorCreate with
    | err m => rw [hcv] at hcur; simp [EngineStep.isOk] at hcur
    | ok u =>
      simp [DatabaseManager.execute_query, DatabaseManager.fetch_one,
        DatabaseManager.fetch_all, DatabaseManager.get_connection, hc, hcv, hic]
  · intro c m hc hcv hic
    simp [DatabaseManager.execute_query, DatabaseManager.fetch_one,
      DatabaseManager.fetch_all, DatabaseManager.get_connection, hc, hcv, hic]
  · intro hic
    cases hc : env.connect with
    | conn c =>
      cases hcv : env.cursorCreate with
      | err m =>
        simp [DatabaseManager.execute_query, DatabaseManager.fetch_one,
          DatabaseManager.fetch_all, DatabaseManager.get_connection, hc, hcv, hic]
      | ok u =>
        simp [DatabaseManager.execute_query, DatabaseManager.fetch_one,
          DatabaseManager.fetch_all, DatabaseManager.get_connection, hc, hcv, hic]
    | raiseEngineError m =>
      simp [DatabaseManager.execute_query, DatabaseManager.fetch_one,
        DatabaseManager.fetch_all, DatabaseManager.get_connection, hc]
    | raiseOther m =>
      simp [DatabaseManager.execute_query, DatabaseManager.fetch_one,
        DatabaseManager.fetch_all, DatabaseManager.get_connection, hc]

/-- Witness for C2 amended on the all-success environment. -/
theorem c2_release_discipline_amended_witness :
    (DatabaseManager.execute_query okEnv "SELECT 1" none).cursorClosed = true
    ∧ (DatabaseManager.execute_query okEnv "SELECT 1" none).connectionClosed = true
    ∧ (DatabaseManager.fetch_one okEnv "SELECT 1" none).connectionClosed = true := by
  have h := (c2_release_discipline_amended okEnv "SELECT 1" none).2.1 1 rfl rfl rfl
  exact ⟨h.1, h.2.1, h.2.2.2.1⟩

/-- Counterexample to C4 as stated: at an engine error raised by cursor
creation (with the connection still reporting connected), execute_query
does not return false — the cleanup raises an unbound-local error
instead. -/
theorem c4_execute_query_counterexample :
    (DatabaseManager.execute_query cursorFailEnv
        "UPDATE users SET name = %s WHERE id = %s"
        (some [Value.str "X", Value.int 3])).result ≠ PyResult.ok false
    ∧ (DatabaseManager.execute_query cursorFailEnv
        "UPDATE users SET name = %s WHERE id = %s"
        (some [Value.str "X", Value.int 3])).result
        = PyResult.raised unboundCursorMsg := by
  exact ⟨by decide, rfl⟩

/-- C4 amended: execute_query returns true exactly when the connection
opens, the cursor is created, and the statement executes and commits
without engine error — in particular for any affected row count, zero
included; it returns false when the connection could not be opened and on
engine errors raised by execution or commit; an engine error at cursor
creation with the connection still reporting connected instead escapes as
an unbound-local exception.  The boolean carries no row count, so zero
rows affected is indistinguishable from rows affected, and an execution
error from a connection failure. -/
theorem c4_execute_query_result_amended :
    ∀ (env : DBEnv) (q : String) (p : Option (List Value)),
    ((DatabaseManager.execute_query env q p).result = PyResult.ok true
        ↔ (∃ c, env.connect = ConnectAttempt.conn c)
          ∧ env.cursorCreate.isOk = true
          ∧ (env.exec (issuedCall q p)).isOk = true
          ∧ env.commit.isOk = true)
    ∧ (∀ m, env.connect = ConnectAttempt.raiseEngineError m →
        (DatabaseManager.execute_query env q p).result = PyResult.ok false)
    ∧ (∀ c n, env.connect = ConnectAttempt.conn c → env.cursorCreate.isOk = true →
        env.exec (issuedCall q p) = EngineStep.ok n → env.commit.isOk = true →
        (DatabaseManager.execute_query env q p).result = PyResult.ok true)
    ∧ (∀ c, env.connect = ConnectAttempt.conn c → env.cursorCreate.isOk = true →
        ((env.exec (issuedCall q p)).isOk = false ∨ env.commit.isOk = false) →
        (DatabaseManager.execute_query env q p).result = PyResult.ok false)
    ∧ (∀ c m, env.connect = ConnectAttempt.conn c →
        env.cursorCreate = EngineStep.err m → env.isConnected = true →
        (DatabaseManager.execute_query env q p).result
          = PyResult.raised unboundCursorMsg) := by
  intro env q p
  have main : ∀ c, env.connect = ConnectAttempt.conn c → env.cursorCreate.isOk = true →
      (DatabaseManager.execute_query env q p).result
        = PyResult.ok ((env.exec (issuedCall q p)).isOk && env.commit.isOk) := by
    intro c hc hcur
    cases hcv : env.cursorCreate with
    | err m => rw [hcv] at hcur; simp [EngineStep.isOk] at hcur
    | ok u =>
      cases hev : env.exec (issuedCall q p) with
      | err m =>
        cases hcm : env.commit with
        | err m' =>
          cases hic : env.isConnected <;>
            simp [DatabaseManager.execute_query, DatabaseManager.get_connection,
              hc, hcv, hev, hcm, hic, EngineStep.isOk]
        | ok u' =>
          cases hic : env.isConnected <;>
            simp [DatabaseManager.execute_query, DatabaseManager.get_connection,
              hc, hcv, hev, hcm, hic, EngineStep.isOk]
      | ok n =>
        cases hcm : env.commit with
        | err m' =>
          cases hic : env.isConnected <;>
            simp [DatabaseManager.execute_query, DatabaseManager.get_connection,
              hc, hcv, hev, hcm, hic, EngineStep.isOk]
        | ok u' =>
          cases hic : env.isConnected <;>
            simp [DatabaseManager.execute_query, DatabaseManager.get_connection,
              hc, hcv, hev, hcm, hic, EngineStep.isOk]
  refine ⟨?_, ?_, ?_, ?_, ?_⟩
  · constructor
    · intro hres
      cases hc : env.connect with
      | conn c =>
        cases hcur : env.cursorCreate with
        | err m =>
          cases hic : env.isConnected <;>
            simp [DatabaseManager.execute_query, DatabaseManager.get_connection,
              hc, hcur, hic] at hres
        | ok u =>
          have hm := main c hc (by rw [hcur]; rfl)
          rw [hm] at hres
          have hb : ((env.exec (issuedCall q p)).isOk && env.commit.isOk) = true := by
            cases hb2 : ((env.exec (issuedCall q p)).isOk && env.commit.isOk)
            · rw [hb2] at hres; exact absurd hres (by simp)
            · rfl
          have hsplit := Bool.and_eq_true_iff.mp hb
          exact ⟨⟨c, rfl⟩, rfl, hsplit.1, hsplit.2⟩
      | raiseEngineError m =>
        simp [DatabaseManager.execute_query, DatabaseManager.get_connection, hc] at hres
      | raiseOther m =>
        simp [DatabaseManager.execute_query, DatabaseManager.get_connection, hc] at hres
    · rintro ⟨⟨c, hc⟩, hcur, hev, hcm⟩
      rw [main c hc hcur, hev, hcm]
      rfl
  · intro m hm
    simp [DatabaseManager.execute_query, DatabaseManager.get_connection, hm]
  · intro c n hc hcur hev hcm
    rw [main c hc hcur, hev, hcm]
    rfl
  · intro c hc hcur hbad
    rw [main c hc hcur]
    rcases hbad with hbad | hbad <;> simp [hbad]
  · intro c m hc hcv hic
    simp [DatabaseManager.execute_query, DatabaseManager.get_connection, hc, hcv, hic]

/-- Witness for C4 amended on the all-success environment. -/
theorem c4_execute_query_result_amended_witness :
    (DatabaseManager.execute_query okEnv "DELETE FROM users WHERE id = %s"
        (some [Value.int 9])).result = PyResult.ok true := by
  exact (c4_execute_query_result_amended okEnv "DELETE FROM users WHERE id = %s"
      (some [Value.int 9])).1.mpr ⟨⟨1, rfl⟩, rfl, rfl, rfl⟩

/-- Counterexample to C5 as stated: when cursor creation raises an engine
error while the connection still reports connected, fetch_one and
fetch_all raise an unbound-local error to the caller instead of returning
the absent or empty result. -/
theorem c5_fetch_counterexample :
    (DatabaseManager.fetch_one cursorFailEnv "SELECT * FROM users WHERE email = %s"
        (some [Value.str "a@b.example"])).result = PyResult.raised unboundCursorMsg
    ∧ (DatabaseManager.fetch_one cursorFailEnv "SELECT * FROM users WHERE email = %s"
        (some [Value.str "a@b.example"])).result ≠ PyResult.ok none
    ∧ (DatabaseManager.fetch_all cursorFailEnv "SELECT * FROM users"
        none).result = PyResult.raised unboundCursorMsg
    ∧ (DatabaseManager.fetch_all cursorFailEnv "SELECT * FROM users"
        none).result ≠ PyResult.ok [] := by
  exact ⟨rfl, by decide, rfl, by decide⟩

/-- C5 amended: fetch_one returns the absent value and fetch_all the empty
sequence both when no row matches and when the connection fails or an
engine error is raised during execution or fetching — those cases are
indistinguishable from the result; but an engine error at cursor creation
with the connection still reporting connected escapes as an unbound-local
exception instead of an absent result. -/
theorem c5_fetch_collapse_amended :
    ∀ (env : DBEnv) (q : String) (p : Option (List Value)),
    (∀ m, env.connect = ConnectAttempt.raiseEngineError m →
      (DatabaseManager.fetch_one env q p).result = PyResult.ok none
      ∧ (DatabaseManager.fetch_all env q p).result = PyResult.ok [])
    ∧ (∀ c m, env.connect = ConnectAttempt.conn c → env.cursorCreate.isOk = true →
        env.exec (issuedCall q p) = EngineStep.err m →
      (DatabaseManager.fetch_one env q p).result = PyResult.ok none
      ∧ (DatabaseManager.fetch_all env q p).result = PyResult.ok [])
    ∧ (∀ c m m', env.connect = ConnectAttempt.conn c → env.cursorCreate.isOk = true →
        (env.exec (issuedCall q p)).isOk = true →
        env.fetchone = EngineStep.err m → env.fetchall = EngineStep.err m' →
      (DatabaseManager.fetch_one env q p).result = PyResult.ok none
      ∧ (DatabaseManager.fetch_all env q p).result = PyResult.ok [])
    ∧ (∀ c, env.connect = ConnectAttempt.conn c → env.cursorCreate.isOk = true →
        (env.exec (issuedCall q p)).isOk = true →
        env.fetchone = EngineStep.ok none → env.fetchall = EngineStep.ok [] →
      (DatabaseManager.fetch_one env q p).result = PyResult.ok none
      ∧ (DatabaseManager.fetch_all env q p).result = PyResult.ok [])
    ∧ (∀ c m, env.connect = ConnectAttempt.conn c →
        env.cursorCreate = EngineStep.err m → env.isConnected = true →
      (DatabaseManager.fetch_one env q p).result = PyResult.raised unboundCursorMsg
      ∧ (DatabaseManager.fetch_all env q p).result = PyResult.raised unboundCursorMsg) := by
  intro env q p
  refine ⟨?_, ?_, ?_, ?_, ?_⟩
  · intro m hm
    simp [DatabaseManager.fetch_one, DatabaseManager.fetch_all,
      DatabaseManager.get_connection, hm]
  · intro c m hc hcur hev
    cases hcv : env.cursorCreate with
    | err m2 => rw [hcv] at hcur; simp [EngineStep.isOk] at hcur
    | ok u =>
      cases hic : env.isConnected <;>
        simp [DatabaseManager.fetch_one, DatabaseManager.fetch_all,
          DatabaseManager.get_connection, hc, hcv, hev, hic]
  · intro c m m' hc hcur hev hf1 hf2
    cases hcv : env.cursorCreate with
    | err m2 => rw [hcv] at hcur; simp [EngineStep.isOk] at hcur
    | ok u =>
      cases hev2 : env.exec (issuedCall q p) with
      | err m2 => rw [hev2] at hev; simp [EngineStep.isOk] at hev
      | ok n =>
        cases hic : env.isConnected <;>
          simp [DatabaseManager.fetch_one, DatabaseManager.fetch_all,
            DatabaseManager.get_connection, hc, hcv, hev2, hf1, hf2, hic]
  · intro c hc hcur hev hf1 hf2
    cases hcv : env.cursorCreate with
    | err m2 => rw [hcv] at hcur; simp [EngineStep.isOk] at hcur
    | ok u =>
      cases hev2 : env.exec (issuedCall q p) with
      | err m2 => rw [hev2] at hev; simp [EngineStep.isOk] at hev
      | ok n =>
        cases hic : env.isConnected <;>
          simp [DatabaseManager.fetch_one, DatabaseManager.fetch_all,
            DatabaseManager.get_connection, hc, hcv, hev2, hf1, hf2, hic]
  · intro c m hc hcv hic
    simp [DatabaseManager.fetch_one, DatabaseManager.fetch_all,
      DatabaseManager.get_connection, hc, hcv, hic]

/-- Witness for C5 amended: a connection failure yields the absent and
empty results. -/
theorem c5_fetch_collapse_amended_witness :
    (DatabaseManager.fetch_one noConnEnv "SELECT * FROM users WHERE id = %s"
        (some [Value.int 2])).result = PyResult.ok none
    ∧ (DatabaseManager.fetch_all noConnEnv "SELECT * FROM users"
        none).result = PyResult.ok [] := by
  exact ⟨((c5_fetch_collapse_amended noConnEnv "SELECT * FROM users WHERE id = %s"
      (some [Value.int 2])).1 "2003 cannot connect to MySQL server" rfl).1,
    ((c5_fetch_collapse_amended noConnEnv "SELECT * FROM users" none).1
      "2003 cannot connect to MySQL server" rfl).2⟩
